import Mathlib

/-!
Shallow embedding of the core of `src/app.py` (an eBay price-arbitrage
detector): the disallowed-term title filter, the listing filters of
`get_completed_prices` and `get_active_under`, the `trimmed_mean` price
estimator, and the arbitrage-classification logic inlined in the
`dashboard` and `api_search` routes.

Modelling conventions:
* Python floats are embedded as `ℚ` (exact arithmetic).
* `math.floor(n * 0.15)` is embedded as `3 * n / 20` on `ℕ`, which equals
  `⌊n * 0.15⌋` for every list length the program can see (the float
  product `n * 0.15` rounds to the nearest double of `0.15 n`, whose
  floor agrees with `⌊3n/20⌋`).
* Python `sorted` is embedded as a stable comparison sort.
* `float(...)` parsing of the upstream price text, which is wrapped in
  `try/except` in the source, is embedded as an `Option ℚ` field of the
  raw item (`none` = the parse raised).
* The network fetches are passed as function parameters; a theorem whose
  conclusion holds for every choice of fetch function expresses that the
  fetch cannot have been invoked on that code path.
* Python truthiness of `avg_price` (`not avg_price`) is embedded by
  `pyTruthy`: `None` and `0.0` are falsy.
-/

/-- Lower-casing of a Python string, on its character list
(`title.lower()` in `contains_disallowed`). -/
def lowerStr (s : String) : List Char := s.data.map Char.toLower

/-- Boolean test that `p` is a prefix of `s` (helper for the embedding of
Python substring containment `term in t`). -/
def prefB : List Char → List Char → Bool
  | [], _ => true
  | _ :: _, [] => false
  | a :: as, b :: bs => a == b && prefB as bs

/-- Boolean test that `p` occurs as a contiguous substring of `s`
(Python `p in s` on strings). -/
def subStrB (p : List Char) : List Char → Bool
  | [] => p.isEmpty
  | b :: bs => prefB p (b :: bs) || subStrB p bs

/-- Embedding of `contains_disallowed` (src/app.py lines 63-65): the
title is lower-cased and each term of `disallowed` is tested for
substring containment as is. -/
def contains_disallowed (title : String) (disallowed : List String) : Bool :=
  disallowed.any fun term => subStrB term.data (lowerStr title)

/-- Embedding of Python `sorted` on price lists (ascending, stable). -/
def sortList (l : List ℚ) : List ℚ := l.insertionSort (· ≤ ·)

/-- Embedding of `statistics.median` applied to an already sorted list:
the middle element for odd length, the average of the two middle
elements for even length. -/
def sortedMedian (s : List ℚ) : ℚ :=
  if s.length % 2 = 1 then s.getD (s.length / 2) 0
  else (s.getD (s.length / 2 - 1) 0 + s.getD (s.length / 2) 0) / 2

/-- The trim width `max(1, math.floor(n*0.15))` of `trimmed_mean`
(src/app.py line 74); `⌊n * 0.15⌋ = 3 * n / 20` on `ℕ`. -/
def trimOf (n : ℕ) : ℕ := max 1 (3 * n / 20)

/-- Embedding of `trimmed_mean` (src/app.py lines 67-76). -/
def trimmed_mean (prices : List ℚ) : Option ℚ :=
  if prices = [] then none
  else
    let prices_sorted := sortList prices
    let n := prices_sorted.length
    if n < 6 then some (sortedMedian prices_sorted)
    else
      let trim := trimOf n
      let core := if 3 ≤ n - 2 * trim then (prices_sorted.drop trim).take (n - 2 * trim)
        else prices_sorted
      if core = [] then some (sortedMedian prices_sorted)
      else some (core.sum / (core.length : ℚ))

/-- The core slice `prices_sorted[trim:n-trim]` of `trimmed_mean`, named
so that theorems can speak about it. -/
def coreOf (l : List ℚ) : List ℚ :=
  let ps := sortList l
  (ps.drop (trimOf ps.length)).take (ps.length - 2 * trimOf ps.length)

/-- A cleaned active listing as built at src/app.py line 155. -/
structure CleanListing where
  id : String
  title : String
  price : ℚ
  url : String
deriving DecidableEq

/-- One raw search-result record, with the fields the filtering loops of
`get_completed_prices` and `get_active_under` read.  `priceVal` is the
result of `float(price_obj.get("__value__", "0"))`: `none` when the
parse raised. -/
structure RawItem where
  title : String
  sellingState : String
  currencyId : String
  priceVal : Option ℚ
  viewItemURL : String
  itemId : String
deriving DecidableEq

/-- The per-record decision of the filtering loop of
`get_completed_prices` (src/app.py lines 99-114): term filter, then
sale-state check, then currency check, then price parse, then
positivity. -/
def completedItemPrice (it : RawItem) (currency : String)
    (disallowed : List String) : Option ℚ :=
  if contains_disallowed it.title disallowed then none
  else if it.sellingState ≠ "EndedWithSales" then none
  else if it.currencyId ≠ currency then none
  else match it.priceVal with
    | none => none
    | some price => if 0 < price then some price else none

/-- Embedding of the pure filtering part of `get_completed_prices`
(src/app.py lines 98-115): the fetched records are a parameter. -/
def get_completed_prices (items : List RawItem) (currency : String)
    (disallowed : List String) : List ℚ :=
  items.filterMap fun it => completedItemPrice it currency disallowed

/-- The per-record decision of the filtering loop of `get_active_under`
(src/app.py lines 140-155): term filter, then currency check, then price
parse, then rejection of non-positive prices. -/
def activeItemClean (it : RawItem) (currency : String)
    (disallowed : List String) : Option CleanListing :=
  if contains_disallowed it.title disallowed then none
  else if it.currencyId ≠ currency then none
  else match it.priceVal with
    | none => none
    | some price => if price ≤ 0 then none
      else some { id := it.itemId, title := it.title, price := price, url := it.viewItemURL }

/-- Embedding of the pure filtering part of `get_active_under`
(src/app.py lines 139-156). -/
def get_active_under (items : List RawItem) (currency : String)
    (disallowed : List String) : List CleanListing :=
  items.filterMap fun it => activeItemClean it currency disallowed

/-- Python truthiness of the `avg_price` value: `None` and `0.0` are
falsy (`not avg_price` at src/app.py lines 256 and 300). -/
def pyTruthy (x : Option ℚ) : Bool :=
  match x with
  | none => false
  | some q => !(q == 0)

/-- Embedding of Python `round(x, 2)` on exact values: round to the
nearest multiple of `1/100`, ties to the even multiple. -/
def roundHalfEven (x : ℚ) : ℤ :=
  if x - ⌊x⌋ < 1 / 2 then ⌊x⌋
  else if 1 / 2 < x - ⌊x⌋ then ⌊x⌋ + 1
  else if ⌊x⌋ % 2 = 0 then ⌊x⌋ else ⌊x⌋ + 1

/-- Round to two decimal places (`round(x, 2)`). -/
def round2 (x : ℚ) : ℚ := (roundHalfEven (x * 100) : ℚ) / 100

/-- The result record built by both routes (src/app.py lines 257, 261,
301, 304); field names follow the source's dict keys. -/
structure ArbitrageResult where
  sold_count : ℕ
  avg_price : Option ℚ
  threshold : Option ℚ
  hits : List CleanListing
  note : Option String
deriving DecidableEq

/-- The classification logic shared by `dashboard` (src/app.py lines
253-261) and `api_search` (lines 298-304).  `fetchActive` stands for the
`get_active_under` call, `noteFor` for the route's note format string.
The first line embeds `avg_price = trimmed_mean(sold_prices) if
sold_prices else None` (lines 254 and 299). -/
def classify (sold_prices : List ℚ) (min_sold : ℕ) (discount_percent : ℚ)
    (fetchActive : ℚ → List CleanListing) (noteFor : ℕ → String) : ArbitrageResult :=
  let avg_price := if sold_prices = [] then none else trimmed_mean sold_prices
  if ¬ pyTruthy avg_price ∨ sold_prices.length < min_sold then
    { sold_count := sold_prices.length, avg_price := avg_price, threshold := none,
      hits := [], note := some (noteFor sold_prices.length) }
  else
    let threshold := round2 (avg_price.getD 0 * (1 - discount_percent / 100))
    { sold_count := sold_prices.length, avg_price := some (round2 (avg_price.getD 0)),
      threshold := some threshold, hits := fetchActive threshold, note := none }

/-- Note text of the `dashboard` route (src/app.py line 257). -/
def dashboardNote (n : ℕ) : String :=
  "Not enough sold data (got " ++ toString n ++ ")."

/-- Note text of the `api_search` route (src/app.py line 301). -/
def apiNote (n : ℕ) : String :=
  "Not enough sold data (" ++ toString n ++ ")."

/-- Embedding of the POST branch of `dashboard` (src/app.py lines
250-261): the discount bound check of line 250 runs before the completed
fetch (`fetchCompleted` is a thunk standing for the
`get_completed_prices` call), and a violation raises `ValueError`,
embedded as `Except.error` with the source's message. -/
def dashboard_post (min_sold : ℕ) (discount_percent : ℚ)
    (fetchCompleted : Unit → List ℚ) (fetchActive : ℚ → List CleanListing) :
    Except String ArbitrageResult :=
  if discount_percent ≤ 0 ∨ 100 ≤ discount_percent then
    Except.error "Discount % must be between 1 and 99."
  else
    Except.ok (classify (fetchCompleted ()) min_sold discount_percent fetchActive dashboardNote)

/-- Embedding of the search part of `api_search` (src/app.py lines
298-304): unlike `dashboard`, this route performs no range check on
`discount_percent` before classifying. -/
def api_search_post (min_sold : ℕ) (discount_percent : ℚ)
    (fetchCompleted : Unit → List ℚ) (fetchActive : ℚ → List CleanListing) :
    ArbitrageResult :=
  classify (fetchCompleted ()) min_sold discount_percent fetchActive apiNote

/-! ## Helper lemmas about the estimator -/

theorem sortList_length (l : List ℚ) : (sortList l).length = l.length :=
  List.length_insertionSort _ l

theorem trim_core_ge (n : ℕ) (h : 6 ≤ n) : 3 ≤ n - 2 * trimOf n := by
  have h1 := Nat.div_add_mod (3 * n) 20
  have h2 : 3 * n % 20 < 20 := Nat.mod_lt _ (by norm_num)
  unfold trimOf
  rcases le_total (3 * n / 20) 1 with hq | hq
  · rw [max_eq_left hq]; omega
  · rw [max_eq_right hq]; omega

theorem coreOf_length (l : List ℚ) :
    (coreOf l).length = l.length - 2 * trimOf l.length := by
  unfold coreOf
  rw [List.length_take, List.length_drop, sortList_length]
  omega

theorem trimmed_branch (l : List ℚ) (h : 6 ≤ l.length) :
    trimmed_mean l = some ((coreOf l).sum / ((coreOf l).length : ℚ)) := by
  have hne : l ≠ [] := by
    intro he; rw [he] at h; simp at h
  have hn : (sortList l).length = l.length := sortList_length l
  have hlt : ¬ (sortList l).length < 6 := by omega
  have hc3 : 3 ≤ (sortList l).length - 2 * trimOf (sortList l).length := by
    rw [hn]; exact trim_core_ge _ h
  have hcne : coreOf l ≠ [] := by
    intro he
    have hl := coreOf_length l
    rw [he] at hl
    have h3 := trim_core_ge l.length h
    simp at hl
    omega
  have hco : coreOf l = ((sortList l).drop (trimOf (sortList l).length)).take
      ((sortList l).length - 2 * trimOf (sortList l).length) := rfl
  simp only [trimmed_mean]
  rw [if_neg hne, if_neg hlt, if_pos hc3, ← hco, if_neg hcne]

/-! ## Claim theorems for the estimator -/

/-- C5: for every price list of length at least 6, the trim width
`trimOf n = max 1 ⌊n * 0.15⌋` satisfies `3 ≤ n - 2 * trimOf n`, so
`trimmed_mean` always takes the trimmed-core mean branch; the too-small
core fallback (and the empty-core median expression) is unreachable. -/
theorem C5_trim_fallback_unreachable (l : List ℚ) (h : 6 ≤ l.length) :
    3 ≤ l.length - 2 * trimOf l.length ∧
    trimmed_mean l = some ((coreOf l).sum / ((coreOf l).length : ℚ)) :=
  ⟨trim_core_ge l.length h, trimmed_branch l h⟩

/-- Witness for C5 at the six-element list of tens. -/
theorem C5_trim_fallback_unreachable_witness :
    3 ≤ 6 - 2 * trimOf 6 ∧
    trimmed_mean [(10 : ℚ), 10, 10, 10, 10, 10] = some 10 := by
  have h := C5_trim_fallback_unreachable [(10 : ℚ), 10, 10, 10, 10, 10] (by norm_num)
  refine ⟨h.1, ?_⟩
  rw [h.2]
  norm_num [coreOf, sortList, trimOf]

/-- C3: for every price list of length `n ≥ 6` whose core
`n - 2 * max 1 ⌊n * 0.15⌋` has at least 3 elements, `trimmed_mean` drops
`trimOf n` elements from each end of the ascending-sorted list and
returns the arithmetic mean of the remaining core. -/
theorem C3_trimmed_core_mean (l : List ℚ) (h6 : 6 ≤ l.length)
    (h3 : 3 ≤ l.length - 2 * trimOf l.length) :
    trimmed_mean l = some ((coreOf l).sum / ((coreOf l).length : ℚ)) :=
  trimmed_branch l h6

/-- Witness for C3: the spec's example `[10,10,10,10,10,10,10,100]`
(n = 8, trim = 1) evaluates to exactly 10. -/
theorem C3_trimmed_core_mean_witness :
    trimmed_mean [(10 : ℚ), 10, 10, 10, 10, 10, 10, 100] = some 10 := by
  have h := C3_trimmed_core_mean [(10 : ℚ), 10, 10, 10, 10, 10, 10, 100]
    (by norm_num) (by norm_num [trimOf])
  rw [h]
  norm_num [coreOf, sortList, trimOf]

/-- C6: for every non-empty price list of length strictly below 6,
`trimmed_mean` returns the median of the ascending-sorted list (middle
element for odd length, average of the two middle elements for even
length), and for the empty list it returns `none`. -/
theorem C6_median_small (l : List ℚ) (hne : l ≠ []) (h : l.length < 6) :
    trimmed_mean l = some (sortedMedian (sortList l)) ∧
    trimmed_mean ([] : List ℚ) = none := by
  refine ⟨?_, rfl⟩
  have hlt : (sortList l).length < 6 := by rw [sortList_length]; exact h
  simp only [trimmed_mean]
  rw [if_neg hne, if_pos hlt]

/-- Witness for C6 at an odd-length and an even-length list. -/
theorem C6_median_small_witness :
    trimmed_mean [(3 : ℚ), 1, 2] = some 2 ∧
    trimmed_mean [(4 : ℚ), 1, 3, 2] = some (5 / 2) := by
  constructor
  · have h := (C6_median_small [(3 : ℚ), 1, 2] (by simp) (by norm_num)).1
    rw [h]
    norm_num [sortedMedian, sortList]
  · have h := (C6_median_small [(4 : ℚ), 1, 3, 2] (by simp) (by norm_num)).1
    rw [h]
    norm_num [sortedMedian, sortList]

/-! ## Claim theorems for the classifier -/

/-- C1: every `ArbitrageResult` produced by the classification logic has
`hits` populated only when `sold_count` reaches `min_sold` and
`avg_price` is present; in every other case `threshold` is absent,
`hits` is empty and `note` is set.  Quantifying over the fetch function
`f` shows the invariant holds whatever the active fetch returns. -/
theorem C1_hits_only_when_sufficient (sold : List ℚ) (ms : ℕ) (d : ℚ)
    (f : ℚ → List CleanListing) (nf : ℕ → String) :
    ((classify sold ms d f nf).hits ≠ [] →
      ms ≤ (classify sold ms d f nf).sold_count ∧
      (classify sold ms d f nf).avg_price.isSome = true) ∧
    (¬ (ms ≤ (classify sold ms d f nf).sold_count ∧
        (classify sold ms d f nf).avg_price.isSome = true) →
      (classify sold ms d f nf).threshold = none ∧
      (classify sold ms d f nf).hits = [] ∧
      (classify sold ms d f nf).note.isSome = true) := by
  simp only [classify]
  by_cases hc : ¬ pyTruthy (if sold = [] then none else trimmed_mean sold) ∨
      sold.length < ms
  · rw [if_pos hc]
    constructor
    · intro h
      exact absurd rfl h
    · intro _
      exact ⟨rfl, rfl, rfl⟩
  · rw [if_neg hc]
    push_neg at hc
    constructor
    · intro _
      exact ⟨hc.2, rfl⟩
    · intro hcon
      exact absurd ⟨hc.2, rfl⟩ hcon

/-- Witness for C1: with six sold prices of 10, `min_sold = 6` and an
active fetch returning one listing, the hits are non-empty and the
theorem yields sufficiency of the sold data. -/
theorem C1_hits_only_when_sufficient_witness :
    6 ≤ (classify [(10 : ℚ), 10, 10, 10, 10, 10] 6 40
        (fun _ => [{ id := "1", title := "cheap", price := 5, url := "u" }])
        dashboardNote).sold_count ∧
    (classify [(10 : ℚ), 10, 10, 10, 10, 10] 6 40
        (fun _ => [{ id := "1", title := "cheap", price := 5, url := "u" }])
        dashboardNote).avg_price.isSome = true := by
  refine C1_hits_only_when_sufficient [(10 : ℚ), 10, 10, 10, 10, 10] 6 40
    (fun _ => [{ id := "1", title := "cheap", price := 5, url := "u" }])
    dashboardNote |>.1 ?_
  have hc : ¬ (¬ pyTruthy (if [(10 : ℚ), 10, 10, 10, 10, 10] = [] then none
      else trimmed_mean [(10 : ℚ), 10, 10, 10, 10, 10]) = true ∨
      ([(10 : ℚ), 10, 10, 10, 10, 10].length < 6)) := by
    push_neg
    refine ⟨?_, by norm_num⟩
    rw [if_neg (by simp), trimmed_branch [(10 : ℚ), 10, 10, 10, 10, 10] (by norm_num)]
    norm_num [coreOf, sortList, trimOf, pyTruthy]
  simp only [classify, if_neg hc]
  simp

/-- C2: whenever the estimate is absent or the sold count is below
`min_sold`, the classification logic returns the note-carrying result
with `sold_count` equal to the number of sold prices, `avg_price` equal
to the (possibly absent) estimate, no threshold and no hits; and the
result is the same for every active fetch function, so the active fetch
is never invoked on this path. -/
theorem C2_insufficient_data (sold : List ℚ) (ms : ℕ) (d : ℚ)
    (f g : ℚ → List CleanListing) (nf : ℕ → String)
    (h : trimmed_mean sold = none ∨ sold.length < ms) :
    classify sold ms d f nf =
      { sold_count := sold.length, avg_price := trimmed_mean sold, threshold := none,
        hits := [], note := some (nf sold.length) } ∧
    classify sold ms d f nf = classify sold ms d g nf := by
  have havg : (if sold = [] then none else trimmed_mean sold) = trimmed_mean sold := by
    split
    next he => rw [he]; rfl
    next => rfl
  have hcond : ¬ pyTruthy (trimmed_mean sold) ∨ sold.length < ms := by
    rcases h with h | h
    · left; rw [h]; simp [pyTruthy]
    · right; exact h
  constructor
  · simp only [classify, havg, if_pos hcond]
  · simp only [classify, havg, if_pos hcond]

/-- Witness for C2: the spec's scenario B, five sold prices against
`min_sold = 12`, produces the note result with the median estimate,
empty hits and no threshold. -/
theorem C2_insufficient_data_witness :
    classify [(10 : ℚ), 20, 30, 40, 50] 12 40
        (fun _ => [{ id := "1", title := "cheap", price := 5, url := "u" }])
        dashboardNote =
      { sold_count := 5, avg_price := some 30, threshold := none, hits := [],
        note := some (dashboardNote 5) } := by
  have ht : trimmed_mean [(10 : ℚ), 20, 30, 40, 50] = some 30 := by
    simp only [trimmed_mean]
    rw [if_neg (by simp)]
    norm_num [sortList, sortedMedian]
  have h := (C2_insufficient_data [(10 : ℚ), 20, 30, 40, 50] 12 40
    (fun _ => [{ id := "1", title := "cheap", price := 5, url := "u" }])
    (fun _ => []) dashboardNote (Or.inr (by norm_num))).1
  rw [h, ht]
  norm_num

/-- C7: when the classification logic proceeds (the estimate is a
present non-zero value and the sold count reaches `min_sold`), the
threshold is `round2 (estimate * (1 - discount/100))`, the returned
average is the estimate rounded to two decimals, and no note is set. -/
theorem C7_threshold_formula (sold : List ℚ) (ms : ℕ) (d : ℚ)
    (f : ℚ → List CleanListing) (nf : ℕ → String) (a : ℚ)
    (ha : trimmed_mean sold = some a) (ha0 : a ≠ 0) (hms : ms ≤ sold.length) :
    (classify sold ms d f nf).threshold = some (round2 (a * (1 - d / 100))) ∧
    (classify sold ms d f nf).avg_price = some (round2 a) ∧
    (classify sold ms d f nf).note = none := by
  have hne : sold ≠ [] := by
    intro he
    rw [he] at ha
    simp [trimmed_mean] at ha
  have havg : (if sold = [] then none else trimmed_mean sold) = some a := by
    rw [if_neg hne, ha]
  have hcond : ¬ (¬ pyTruthy (some a) ∨ sold.length < ms) := by
    push_neg
    refine ⟨?_, by omega⟩
    simp [pyTruthy, ha0]
  simp only [classify, havg]
  rw [if_neg hcond]
  exact ⟨rfl, rfl, rfl⟩

/-- Witness for C7: the spec's threshold example, estimate 100 and
discount 40, gives threshold exactly 60 and rounded average 100. -/
theorem C7_threshold_formula_witness :
    (classify [(100 : ℚ)] 1 40 (fun _ => []) dashboardNote).threshold = some 60 ∧
    (classify [(100 : ℚ)] 1 40 (fun _ => []) dashboardNote).avg_price = some 100 ∧
    (classify [(100 : ℚ)] 1 40 (fun _ => []) dashboardNote).note = none := by
  have h := C7_threshold_formula [(100 : ℚ)] 1 40 (fun _ => []) dashboardNote 100
    (by norm_num [trimmed_mean, sortList, sortedMedian]) (by norm_num) (by norm_num)
  refine ⟨?_, ?_, h.2.2⟩
  · rw [h.1]
    norm_num [round2, roundHalfEven]
  · rw [h.2.1]
    norm_num [round2, roundHalfEven]

/-! ## Claim theorems for the discount validation -/

/-- C8 (amended): in the dashboard route, every `discount_percent`
outside the open interval (0, 100) — including exactly 0 and exactly
100 — is rejected with the source's `ValueError` message, and the result
is the same for every completed-fetch and active-fetch collaborator, so
no network fetch is invoked and the value is not clamped. -/
theorem C8_dashboard_discount_rejected (ms : ℕ) (d : ℚ)
    (fc fc2 : Unit → List ℚ) (fa fa2 : ℚ → List CleanListing)
    (h : d ≤ 0 ∨ 100 ≤ d) :
    dashboard_post ms d fc fa = Except.error "Discount % must be between 1 and 99." ∧
    dashboard_post ms d fc fa = dashboard_post ms d fc2 fa2 := by
  constructor <;> simp only [dashboard_post, if_pos h]

/-- Witness for C8 at `discount_percent = 100`. -/
theorem C8_dashboard_discount_rejected_witness :
    dashboard_post 12 100 (fun _ => [10, 10, 10, 10, 10, 10]) (fun _ => []) =
      Except.error "Discount % must be between 1 and 99." :=
  (C8_dashboard_discount_rejected 12 100 (fun _ => [10, 10, 10, 10, 10, 10])
    (fun _ => []) (fun _ => []) (fun _ => []) (Or.inr (by norm_num))).1

/-- Counterexample to C8 as stated: the `api_search` route performs no
range check on `discount_percent`.  With `discount_percent = 0` (not
strictly between 0 and 100) and six sold prices of 10, the api
invocation is not rejected: it proceeds, invokes the active fetch at
threshold `round(10 * (1 - 0/100), 2) = 10`, and returns its listing as
a hit with no note. -/
theorem C8_api_counterexample :
    (api_search_post 1 0 (fun _ => [10, 10, 10, 10, 10, 10])
        (fun _ => [{ id := "1", title := "cheap", price := 5, url := "u" }])).hits =
      [{ id := "1", title := "cheap", price := 5, url := "u" }] ∧
    (api_search_post 1 0 (fun _ => [10, 10, 10, 10, 10, 10])
        (fun _ => [{ id := "1", title := "cheap", price := 5, url := "u" }])).note =
      none := by
  have hc : ¬ (¬ pyTruthy (if [(10 : ℚ), 10, 10, 10, 10, 10] = [] then none
      else trimmed_mean [(10 : ℚ), 10, 10, 10, 10, 10]) = true ∨
      ([(10 : ℚ), 10, 10, 10, 10, 10].length < 1)) := by
    push_neg
    refine ⟨?_, by norm_num⟩
    rw [if_neg (by simp), trimmed_branch [(10 : ℚ), 10, 10, 10, 10, 10] (by norm_num)]
    norm_num [coreOf, sortList, trimOf, pyTruthy]
  simp only [api_search_post, classify, if_neg hc]
  simp

/-! ## Helper lemmas for substring containment -/

theorem prefB_iff (p : List Char) : ∀ s : List Char,
    prefB p s = true ↔ ∃ t, s = p ++ t := by
  induction p with
  | nil =>
    intro s
    simp [prefB]
  | cons a as ih =>
    intro s
    cases s with
    | nil =>
      simp [prefB]
    | cons b bs =>
      simp only [prefB, Bool.and_eq_true, beq_iff_eq, ih, List.cons_append,
        List.cons_eq_cons]
      constructor
      · rintro ⟨hab, t, ht⟩
        exact ⟨t, hab.symm, ht⟩
      · rintro ⟨t, hba, ht⟩
        exact ⟨hba.symm, t, ht⟩

theorem subStrB_iff (p : List Char) : ∀ s : List Char,
    subStrB p s = true ↔ ∃ u v, s = u ++ p ++ v := by
  intro s
  induction s with
  | nil =>
    simp only [subStrB, List.isEmpty_iff]
    constructor
    · rintro rfl
      exact ⟨[], [], rfl⟩
    · rintro ⟨u, v, huv⟩
      rcases List.append_eq_nil.mp huv.symm with ⟨h1, h2⟩
      exact (List.append_eq_nil.mp h1).2
  | cons b bs ih =>
    simp only [subStrB, Bool.or_eq_true, prefB_iff, ih]
    constructor
    · rintro (⟨t, ht⟩ | ⟨u, v, huv⟩)
      · exact ⟨[], t, by simp [ht]⟩
      · exact ⟨b :: u, v, by simp [huv]⟩
    · rintro ⟨u, v, huv⟩
      cases u with
      | nil =>
        left
        exact ⟨v, by simpa using huv⟩
      | cons x xs =>
        right
        rcases List.cons_eq_cons.mp (by simpa using huv) with ⟨hbx, hrest⟩
        exact ⟨xs, v, by simp [hrest]⟩

/-! ## Claim theorems for the filter -/

/-- C9: for every title and every list of (already lower-cased)
disallowed terms, `contains_disallowed` rejects the title exactly when
the lower-cased title contains the lower-cased term as a contiguous
substring — not as a whole word. -/
theorem C9_substring_rejection (title : String) (disallowed : List String)
    (hlow : ∀ t ∈ disallowed, t.data.map Char.toLower = t.data) :
    contains_disallowed title disallowed = true ↔
      ∃ t ∈ disallowed, ∃ u v,
        lowerStr title = u ++ t.data.map Char.toLower ++ v := by
  unfold contains_disallowed
  rw [List.any_eq_true]
  constructor
  · rintro ⟨t, ht, hs⟩
    refine ⟨t, ht, ?_⟩
    rw [hlow t ht]
    exact (subStrB_iff _ _).1 hs
  · rintro ⟨t, ht, u, v, huv⟩
    rw [hlow t ht] at huv
    exact ⟨t, ht, (subStrB_iff _ _).2 ⟨u, v, huv⟩⟩

/-- Witness for C9: the title "PSA9 Charizard" is rejected when the
disallowed set contains "psa". -/
theorem C9_substring_rejection_witness :
    contains_disallowed "PSA9 Charizard" ["psa"] = true := by
  refine (C9_substring_rejection "PSA9 Charizard" ["psa"] ?_).2 ?_
  · intro t ht
    rcases List.mem_singleton.mp ht with rfl
    rfl
  · exact ⟨"psa", List.mem_singleton.mpr rfl, [], "9 charizard".data, by rfl⟩

/-- C10: a raw record whose native currency differs from the requested
currency is excluded by both filtering passes, whatever its price or
title: its per-record decision is `none` in `completedItemPrice` and in
`activeItemClean`, and inserting it anywhere into the fetched batch
leaves the output of `get_completed_prices` and of `get_active_under`
unchanged. -/
theorem C10_currency_mismatch_excluded (it : RawItem) (currency : String)
    (disallowed : List String) (pre post : List RawItem)
    (h : it.currencyId ≠ currency) :
    completedItemPrice it currency disallowed = none ∧
    activeItemClean it currency disallowed = none ∧
    get_completed_prices (pre ++ it :: post) currency disallowed =
      get_completed_prices (pre ++ post) currency disallowed ∧
    get_active_under (pre ++ it :: post) currency disallowed =
      get_active_under (pre ++ post) currency disallowed := by
  have h1 : completedItemPrice it currency disallowed = none := by
    simp [completedItemPrice, h]
  have h2 : activeItemClean it currency disallowed = none := by
    simp [activeItemClean, h]
  refine ⟨h1, h2, ?_, ?_⟩
  · unfold get_completed_prices
    rw [List.filterMap_append, List.filterMap_append]
    simp [List.filterMap_cons, h1]
  · unfold get_active_under
    rw [List.filterMap_append, List.filterMap_append]
    simp [List.filterMap_cons, h2]

/-- Witness for C10 at a USD-priced record against a GBP request. -/
theorem C10_currency_mismatch_excluded_witness :
    completedItemPrice
      { title := "Charizard Holo", sellingState := "EndedWithSales",
        currencyId := "USD", priceVal := some 50, viewItemURL := "u",
        itemId := "1" } "GBP" [] = none ∧
    activeItemClean
      { title := "Charizard Holo", sellingState := "EndedWithSales",
        currencyId := "USD", priceVal := some 50, viewItemURL := "u",
        itemId := "1" } "GBP" [] = none := by
  have h := C10_currency_mismatch_excluded
    { title := "Charizard Holo", sellingState := "EndedWithSales",
      currencyId := "USD", priceVal := some 50, viewItemURL := "u", itemId := "1" }
    "GBP" [] [] [] (by decide)
  exact ⟨h.1, h.2.1⟩
